import Mathlib

set_option maxHeartbeats 1000000

/-!
Verification of the import-validation pipeline of the ProductManager
repository: the product validator (`validateProduct`), the import
aggregator (`validateProducts`), the sync gate (`canSyncToDatabase`) and
the confirmed-sync loop (`handleConfirmSync` together with the product
store's `addProduct`/`updateProduct`).  All definitions are shallow
embeddings of the TypeScript source.
-/

namespace ProductManager

/-- A JavaScript number as far as the validation rules observe it: either
`NaN` or an ordinary numeric value (modelled as an integer — the validator
only ever compares an MRP against `0`).  Comparisons involving `NaN` are
false, as in JavaScript. -/
inductive JNum where
  | nan : JNum
  | num : Int → JNum
deriving DecidableEq, Repr

/-- JavaScript `<` on numbers: any comparison involving `NaN` is false. -/
def JNum.jsLt : JNum → JNum → Bool
  | .num a, .num b => a < b
  | _, _ => false

/-- `ProductStatus` from the types module: `'active' | 'inactive' | 'hide' | 'deleted'`. -/
inductive ProductStatus where
  | active | inactive | hide | deleted
deriving DecidableEq, Repr

/-- `ValidationStatus` from the types module: `'accepted' | 'error' | 'warning'`. -/
inductive ValidationStatus where
  | accepted | error | warning
deriving DecidableEq, Repr

/-- `ImportAction` from the types module: `'insert' | 'update' | 'skip'`. -/
inductive ImportAction where
  | insert | update | skip
deriving DecidableEq, Repr

/-- The `ProductSKU` interface (import data model), audit fields included.
String-union fields that the validator only compares as strings
(`currency`, `product_uom`) stay `String`; `Date`-valued audit fields are
modelled as opaque strings; numeric fields are `JNum`. -/
structure ProductSKU where
  tenant_id : String
  created_by : String
  created_on : String
  modified_by : String
  modified_on : String
  id : String
  business_id : String
  pricelist_id : String
  pricelist_upload_date : String
  pricelist_name : String
  product_group : String
  product_catg : String
  product_name : String
  product_description : String
  product_uom : String
  product_uom_value : JNum
  business_product_id : String
  box_units : JNum
  parent_product_id : Option String
  product_status : ProductStatus
  currency : String
  product_mrp : JNum
  sgst : JNum
  cgst : JNum
  igst : JNum
  dealer_price : JNum
  product_updated_by : String
  product_verified_by : String
  product_remark : Option String
deriving DecidableEq, Repr

/-- `ValidationResult` from the types module. -/
structure ValidationResult where
  status : ValidationStatus
  action : ImportAction
  errors : List String
  warnings : List String
  remark : String
deriving DecidableEq, Repr

/-- `ValidatedProduct` — in the source it is `ProductSKU` spread together
with the verdict and the row index; here the spread product is kept as a
single `product` field. -/
structure ValidatedProduct where
  product : ProductSKU
  validation : ValidationResult
  rowIndex : Nat
deriving DecidableEq, Repr

/-- `ValidationSummary` from the types module. -/
structure ValidationSummary where
  totalRows : Nat
  acceptedRows : Nat
  errorRows : Nat
  warningRows : Nat
  insertCount : Nat
  updateCount : Nat
  skipCount : Nat
  missingProducts : List ProductSKU
  validatedProducts : List ValidatedProduct
deriving DecidableEq, Repr

/-- `const ALLOWED_CURRENCIES = ['Rs', 'EUR']`. -/
def ALLOWED_CURRENCIES : List String := ["Rs", "EUR"]

/-- The MRP rule's message, pushed when `product.product_mrp < 0`. -/
def mrpErrorMsg : String := "MRP must be greater than or equal to 0"

/-- The currency rule's message (the source interpolates
`ALLOWED_CURRENCIES.join(', ')`). -/
def currencyErrorMsg : String :=
  "Currency must be one of: " ++ String.intercalate ", " ALLOWED_CURRENCIES

/-- The duplicate rule's message, naming the pricelist identifier and the
business product identifier of the offending row. -/
def duplicateErrorMsg (product : ProductSKU) : String :=
  "Duplicate entry: (" ++ product.pricelist_id ++ ", " ++ product.business_product_id ++
    ") appears multiple times in import file"

/-- Required-field message for the business product identifier. -/
def businessIdErrorMsg : String := "Business Product ID is required"

/-- Required-field message for the pricelist identifier. -/
def pricelistIdErrorMsg : String := "Pricelist ID is required"

/-- Required-field message for the product name. -/
def productNameErrorMsg : String := "Product Name is required"

/-- JavaScript `String.prototype.trim`, modelled over the string's
character list: leading and trailing whitespace removed. -/
def jsTrim (s : String) : String :=
  ⟨((s.data.dropWhile Char.isWhitespace).reverse.dropWhile Char.isWhitespace).reverse⟩

/-- JavaScript `Array.prototype.filter` when the callback also reads the
element's index; the first argument of each callback call is the index,
counted from the accumulator `i`. -/
def filterWithIndex {α : Type} (f : Nat → α → Bool) : Nat → List α → List α
  | _, [] => []
  | i, a :: as =>
    if f i a then a :: filterWithIndex f (i + 1) as else filterWithIndex f (i + 1) as

/-- JavaScript `Array.prototype.map` when the callback also reads the
element's index. -/
def mapWithIndex {α β : Type} (f : Nat → α → β) : Nat → List α → List β
  | _, [] => []
  | i, a :: as => f i a :: mapWithIndex f (i + 1) as

/-- The duplicate scan of `validateProduct`:
`importData.filter((p, index) => index !== rowIndex && p.pricelist_id === product.pricelist_id && p.business_product_id === product.business_product_id)`. -/
def duplicatesOf (product : ProductSKU) (rowIndex : Nat)
    (importData : List ProductSKU) : List ProductSKU :=
  filterWithIndex (fun index p =>
    index != rowIndex &&
    p.pricelist_id == product.pricelist_id &&
    p.business_product_id == product.business_product_id) 0 importData

/-- The sequence of `errors.push(...)` calls of `validateProduct`, in
source order: MRP rule, currency rule, duplicate rule, then the three
required-field rules.  A required-field check `!field?.trim()` fires when
the field trims to the empty string. -/
def collectErrors (product : ProductSKU) (rowIndex : Nat)
    (importData : List ProductSKU) : List String :=
  (if product.product_mrp.jsLt (JNum.num 0) then [mrpErrorMsg] else []) ++
  (if ALLOWED_CURRENCIES.contains product.currency then [] else [currencyErrorMsg]) ++
  (if (duplicatesOf product rowIndex importData).length > 0 then [duplicateErrorMsg product] else []) ++
  (if jsTrim product.business_product_id == "" then [businessIdErrorMsg] else []) ++
  (if jsTrim product.pricelist_id == "" then [pricelistIdErrorMsg] else []) ++
  (if jsTrim product.product_name == "" then [productNameErrorMsg] else [])

/-- `validateProduct(product, rowIndex, existingProducts, importData)`.
The source initialises `action = 'insert'`, switches it to `'update'` when
`existingProducts.find(p => p.business_product_id === product.business_product_id)`
hits, pushes error messages (here `collectErrors`), and finally forces
`status = 'error'`, `action = 'skip'` when errors exist, or
`status = 'warning'` when only warnings exist. -/
def validateProduct (product : ProductSKU) (rowIndex : Nat)
    (existingProducts : List ProductSKU) (importData : List ProductSKU) : ValidatedProduct :=
  let warnings : List String := []
  let existingProduct :=
    existingProducts.find? (fun p => p.business_product_id == product.business_product_id)
  let tentativeAction : ImportAction := if existingProduct.isSome then .update else .insert
  let errors := collectErrors product rowIndex importData
  let status : ValidationStatus :=
    if errors.length > 0 then .error
    else if warnings.length > 0 then .warning
    else .accepted
  let action : ImportAction := if errors.length > 0 then .skip else tentativeAction
  let remark : String :=
    if status == .error then String.intercalate "; " errors
    else if status == .warning then String.intercalate "; " warnings
    else if action == .update then "Product will be updated" else "New product will be added"
  { product := product
    validation :=
      { status := status, action := action, errors := errors, warnings := warnings,
        remark := remark }
    rowIndex := rowIndex }

/-- `validateProducts(importData, existingProducts)`: maps the validator
over the batch with the row index, computes the missing-products list
(active catalog entries whose business product identifier is absent from
the batch — the source materialises the batch identifiers in a `Set`,
modelled here by list membership), and the per-status and per-action
counts. -/
def validateProducts (importData : List ProductSKU)
    (existingProducts : List ProductSKU) : ValidationSummary :=
  let validatedProducts :=
    mapWithIndex (fun index product => validateProduct product index existingProducts importData)
      0 importData
  let importProductIds := importData.map (fun p => p.business_product_id)
  let missingProducts := existingProducts.filter (fun p =>
    p.product_status == .active && !(importProductIds.contains p.business_product_id))
  let totalRows := validatedProducts.length
  let acceptedRows := (validatedProducts.filter (fun p => p.validation.status == .accepted)).length
  let errorRows := (validatedProducts.filter (fun p => p.validation.status == .error)).length
  let warningRows := (validatedProducts.filter (fun p => p.validation.status == .warning)).length
  let insertCount := (validatedProducts.filter (fun p => p.validation.action == .insert)).length
  let updateCount := (validatedProducts.filter (fun p => p.validation.action == .update)).length
  let skipCount := (validatedProducts.filter (fun p => p.validation.action == .skip)).length
  { totalRows := totalRows, acceptedRows := acceptedRows, errorRows := errorRows,
    warningRows := warningRows, insertCount := insertCount, updateCount := updateCount,
    skipCount := skipCount, missingProducts := missingProducts,
    validatedProducts := validatedProducts }

/-- `canSyncToDatabase(summary)`: `summary.errorRows === 0`. -/
def canSyncToDatabase (summary : ValidationSummary) : Bool :=
  summary.errorRows == 0

/-- One store mutation issued by the confirmed-sync loop of
`handleConfirmSync`: `addProduct(validatedProduct)` or
`updateProduct(validatedProduct.business_product_id, validatedProduct)`. -/
inductive StoreCall where
  | add (vp : ValidatedProduct)
  | update (id : String) (vp : ValidatedProduct)
deriving DecidableEq, Repr

/-- The product store's visible state: the product list plus the `error`
state the context sets when a mutation's catch block runs. -/
structure Store where
  products : List ProductSKU
  error : Option String
deriving DecidableEq, Repr

/-- The fallible interior of the context's `addProduct` (tenant lookup,
record construction, cache write).  The environment `outcome` says whether
this call's interior throws, and with which message; on success the new
record is appended to the product list. -/
def addProductBody (outcome : Option String) (st : Store)
    (vp : ValidatedProduct) : Except String Store :=
  match outcome with
  | some msg => .error msg
  | none => .ok { st with products := st.products ++ [vp.product] }

/-- `addProduct` as the context exports it: the whole body sits in
`try { ... } catch (err) { setError(...); toast.error(...) }`, so a failure
is caught inside the call — the promise resolves and only the `error`
state records the message. -/
def addProduct (outcome : Option String) (st : Store) (vp : ValidatedProduct) : Store :=
  match addProductBody outcome st vp with
  | .ok st' => st'
  | .error msg => { st with error := some msg }

/-- The fallible interior of the context's `updateProduct`: on success the
products whose `id` matches the passed identifier are overwritten with the
incoming row's fields (the source merges the partial record over the
existing one; the sync loop passes the whole row, so the merge is the
incoming row). -/
def updateProductBody (outcome : Option String) (st : Store) (id : String)
    (vp : ValidatedProduct) : Except String Store :=
  match outcome with
  | some msg => .error msg
  | none =>
    .ok { st with products := st.products.map (fun q => if q.id == id then vp.product else q) }

/-- `updateProduct` as the context exports it, with the same swallowing
try/catch as `addProduct`. -/
def updateProduct (outcome : Option String) (st : Store) (id : String)
    (vp : ValidatedProduct) : Store :=
  match updateProductBody outcome st id vp with
  | .ok st' => st'
  | .error msg => { st with error := some msg }

/-- The loop of `handleConfirmSync` over `validatedProducts`: rows with
verdict status `accepted` and action `insert` call `addProduct`, those
with action `update` call
`updateProduct(validatedProduct.business_product_id, validatedProduct)`,
and no other row issues a store call.  `env` assigns to each row position
the outcome of its store call's interior (`none` = success); the result
pairs the final store with the list of store calls issued, in order. -/
def confirmSyncRun (env : Nat → Option String) :
    Nat → Store → List ValidatedProduct → Store × List StoreCall
  | _, st, [] => (st, [])
  | k, st, vp :: rest =>
    if vp.validation.status == .accepted then
      if vp.validation.action == .insert then
        let next := confirmSyncRun env (k + 1) (addProduct (env k) st vp) rest
        (next.1, StoreCall.add vp :: next.2)
      else if vp.validation.action == .update then
        let next := confirmSyncRun env (k + 1)
          (updateProduct (env k) st vp.product.business_product_id vp) rest
        (next.1, StoreCall.update vp.product.business_product_id vp :: next.2)
      else confirmSyncRun env (k + 1) st rest
    else confirmSyncRun env (k + 1) st rest

/-- A concrete, fully valid import row used to instantiate the theorems:
business identifier `P1`, pricelist `PL1`, name `Widget`, MRP `100`,
currency `Rs`. -/
def baseRow : ProductSKU :=
  { tenant_id := "t1", created_by := "u1", created_on := "2024-01-01",
    modified_by := "u1", modified_on := "2024-01-01", id := "sku-1",
    business_id := "b1", pricelist_id := "PL1", pricelist_upload_date := "2024-01-01",
    pricelist_name := "January", product_group := "G1", product_catg := "C1",
    product_name := "Widget", product_description := "A widget",
    product_uom := "units", product_uom_value := .num 1,
    business_product_id := "P1", box_units := .num 1, parent_product_id := none,
    product_status := .active, currency := "Rs", product_mrp := .num 100,
    sgst := .num 0, cgst := .num 0, igst := .num 0, dealer_price := .num 0,
    product_updated_by := "u1", product_verified_by := "u1", product_remark := none }

/-- Scenario-B row: `baseRow` with MRP `-5`, which fails the MRP rule. -/
def negMrpRow : ProductSKU := { baseRow with product_mrp := .num (-5) }

/-- A row whose MRP is JavaScript `NaN` and which is valid in every other
respect. -/
def nanMrpRow : ProductSKU := { baseRow with product_mrp := .nan }

/-! ### Helper lemmas -/

lemma mapWithIndex_length {α β : Type} (f : Nat → α → β) (i : Nat) (l : List α) :
    (mapWithIndex f i l).length = l.length := by
  induction l generalizing i with
  | nil => rfl
  | cons a as ih => simp [mapWithIndex, ih]

lemma mapWithIndex_forall {α β : Type} (f : Nat → α → β) (P : β → Prop)
    (h : ∀ i a, P (f i a)) : ∀ (n : Nat) (l : List α), ∀ b ∈ mapWithIndex f n l, P b := by
  intro n l
  induction l generalizing n with
  | nil => simp [mapWithIndex]
  | cons a as ih =>
    intro b hb
    simp only [mapWithIndex, List.mem_cons] at hb
    rcases hb with rfl | hb
    · exact h n a
    · exact ih (n + 1) b hb

lemma validateProduct_errors (p : ProductSKU) (i : Nat) (e l : List ProductSKU) :
    (validateProduct p i e l).validation.errors = collectErrors p i l := rfl

lemma validateProduct_warnings (p : ProductSKU) (i : Nat) (e l : List ProductSKU) :
    (validateProduct p i e l).validation.warnings = [] := rfl

lemma validateProduct_status (p : ProductSKU) (i : Nat) (e l : List ProductSKU) :
    (validateProduct p i e l).validation.status =
      (if (collectErrors p i l).length > 0 then ValidationStatus.error
       else ValidationStatus.accepted) := by
  simp [validateProduct]

lemma validateProduct_action (p : ProductSKU) (i : Nat) (e l : List ProductSKU) :
    (validateProduct p i e l).validation.action =
      (if (collectErrors p i l).length > 0 then ImportAction.skip
       else if (e.find? (fun q => q.business_product_id == p.business_product_id)).isSome
       then ImportAction.update else ImportAction.insert) := by
  simp [validateProduct]

/-! ### C1 — the sync gate -/

/-- C1: `canSyncToDatabase(summary)` is true exactly when
`summary.errorRows == 0`, and the gate reads no other field of the
summary: any two summaries with the same `errorRows` get the same gate
answer. -/
theorem canSyncToDatabase_iff_no_error_rows (summary : ValidationSummary) :
    (canSyncToDatabase summary = true ↔ summary.errorRows = 0) ∧
    ∀ other : ValidationSummary, other.errorRows = summary.errorRows →
      canSyncToDatabase other = canSyncToDatabase summary := by
  constructor
  · simp [canSyncToDatabase]
  · intro other h
    simp [canSyncToDatabase, h]

/-- Witness for C1 at two concrete summaries that agree on `errorRows`. -/
theorem canSyncToDatabase_iff_no_error_rows_witness :
    canSyncToDatabase (validateProducts [] []) =
      canSyncToDatabase (validateProducts [baseRow] []) :=
  (canSyncToDatabase_iff_no_error_rows (validateProducts [baseRow] [])).2
    (validateProducts [] []) (by decide)

/-! ### C2 — error status ⇔ non-empty errors, and errors force skip -/

/-- C2: for every row, row index, catalog and batch, the verdict has
status `error` exactly when its error list is non-empty, and an `error`
status forces action `skip`. -/
theorem validateProduct_error_status_iff (product : ProductSKU) (rowIndex : Nat)
    (existingProducts importData : List ProductSKU) :
    ((validateProduct product rowIndex existingProducts importData).validation.status =
        ValidationStatus.error ↔
      (validateProduct product rowIndex existingProducts importData).validation.errors ≠ []) ∧
    ((validateProduct product rowIndex existingProducts importData).validation.status =
        ValidationStatus.error →
      (validateProduct product rowIndex existingProducts importData).validation.action =
        ImportAction.skip) := by
  rw [validateProduct_errors, validateProduct_status, validateProduct_action]
  rcases h : collectErrors product rowIndex importData with _ | ⟨a, as⟩ <;> simp

/-- Witness for C2: the negative-MRP row has an `error` verdict, so the
theorem forces its action to `skip`. -/
theorem validateProduct_error_status_iff_witness :
    (validateProduct negMrpRow 0 [] [negMrpRow]).validation.action = ImportAction.skip :=
  (validateProduct_error_status_iff negMrpRow 0 [] [negMrpRow]).2 (by decide)

/-! ### C10 — warnings are never produced -/

/-- C10: every verdict has an empty warnings list and a status other than
`warning` (the validator never pushes a warning), so every summary has
`warningRows == 0`. -/
theorem validateProduct_never_warning :
    (∀ (product : ProductSKU) (rowIndex : Nat) (existingProducts importData : List ProductSKU),
      (validateProduct product rowIndex existingProducts importData).validation.warnings = [] ∧
      (validateProduct product rowIndex existingProducts importData).validation.status ≠
        ValidationStatus.warning) ∧
    ∀ importData existingProducts : List ProductSKU,
      (validateProducts importData existingProducts).warningRows = 0 := by
  constructor
  · intro p i e l
    refine ⟨rfl, ?_⟩
    rw [validateProduct_status]
    rcases collectErrors p i l with _ | ⟨a, as⟩ <;> simp
  · intro l e
    simp only [validateProducts, List.length_eq_zero, List.filter_eq_nil_iff]
    refine mapWithIndex_forall _ _ ?_ 0 l
    intro i p
    have h := validateProduct_status p i e l
    rcases hc : collectErrors p i l with _ | ⟨a, as⟩ <;> simp [hc] at h <;> simp [h]

/-- Witness for C10 at a concrete row and batch. -/
theorem validateProduct_never_warning_witness :
    (validateProduct baseRow 0 [] [baseRow]).validation.warnings = [] :=
  (validateProduct_never_warning.1 baseRow 0 [] [baseRow]).1

/-! ### C3 — insert/update classification -/

lemma find?_isSome_eq_any {α : Type} (l : List α) (f : α → Bool) :
    (l.find? f).isSome = l.any f := by
  induction l with
  | nil => rfl
  | cons a as ih => by_cases h : f a <;> simp [List.find?, h, ih]

/-- C3: when a row's verdict carries no errors, its action is `update`
exactly when some catalog product shares the row's business product
identifier and `insert` otherwise; when errors exist the action is forced
to `skip`. -/
theorem validateProduct_action_classification (product : ProductSKU) (rowIndex : Nat)
    (existingProducts importData : List ProductSKU) :
    ((validateProduct product rowIndex existingProducts importData).validation.errors = [] →
      (validateProduct product rowIndex existingProducts importData).validation.action =
        (if existingProducts.any (fun q => q.business_product_id == product.business_product_id)
         then ImportAction.update else ImportAction.insert)) ∧
    ((validateProduct product rowIndex existingProducts importData).validation.errors ≠ [] →
      (validateProduct product rowIndex existingProducts importData).validation.action =
        ImportAction.skip) := by
  rw [validateProduct_errors, validateProduct_action, find?_isSome_eq_any]
  rcases h : collectErrors product rowIndex importData with _ | ⟨a, as⟩ <;> simp

/-- Witness for C3: a valid row whose identifier is already in the catalog
is classified `update`. -/
theorem validateProduct_action_classification_witness :
    (validateProduct baseRow 0 [baseRow] [baseRow]).validation.action = ImportAction.update := by
  have h := (validateProduct_action_classification baseRow 0 [baseRow] [baseRow]).1 (by decide)
  rw [h]
  decide

/-! ### C6 — summary count invariants -/

lemma action_counts_partition (l : List ValidatedProduct) :
    (l.filter (fun p => p.validation.action == ImportAction.insert)).length +
    (l.filter (fun p => p.validation.action == ImportAction.update)).length +
    (l.filter (fun p => p.validation.action == ImportAction.skip)).length = l.length := by
  induction l with
  | nil => rfl
  | cons a as ih =>
    rcases ha : a.validation.action <;> simp [List.filter_cons, ha] <;> omega

lemma status_counts_partition (l : List ValidatedProduct) :
    (l.filter (fun p => p.validation.status == ValidationStatus.accepted)).length +
    (l.filter (fun p => p.validation.status == ValidationStatus.error)).length +
    (l.filter (fun p => p.validation.status == ValidationStatus.warning)).length = l.length := by
  induction l with
  | nil => rfl
  | cons a as ih =>
    rcases ha : a.validation.status <;> simp [List.filter_cons, ha] <;> omega

/-- C6: in every summary the action counts and the status counts each sum
to `totalRows`, and `totalRows` is the length of the batch. -/
theorem validateProducts_count_invariants (importData existingProducts : List ProductSKU) :
    (validateProducts importData existingProducts).insertCount +
      (validateProducts importData existingProducts).updateCount +
      (validateProducts importData existingProducts).skipCount =
      (validateProducts importData existingProducts).totalRows ∧
    (validateProducts importData existingProducts).acceptedRows +
      (validateProducts importData existingProducts).errorRows +
      (validateProducts importData existingProducts).warningRows =
      (validateProducts importData existingProducts).totalRows ∧
    (validateProducts importData existingProducts).totalRows = importData.length := by
  simp only [validateProducts]
  exact ⟨action_counts_partition _, status_counts_partition _, mapWithIndex_length _ _ _⟩

/-! ### C4 — intra-batch duplicates -/

lemma filterWithIndex_pos {α : Type} (f : Nat → α → Bool) (l : List α) (n j : Nat)
    (hj : j < l.length) (h : f (n + j) l[j] = true) :
    0 < (filterWithIndex f n l).length := by
  induction l generalizing n j with
  | nil => simp at hj
  | cons a as ih =>
    by_cases hf : f n a
    · simp [filterWithIndex, hf]
    · cases j with
      | zero =>
        rw [Nat.add_zero] at h
        simp only [List.getElem_cons_zero] at h
        exact absurd h (by simpa using hf)
      | succ j' =>
        have hj' : j' < as.length := Nat.lt_of_succ_lt_succ (by simpa using hj)
        have h' : f (n + 1 + j') as[j'] = true := by
          have e : n + (j' + 1) = n + 1 + j' := by omega
          rw [← e]
          simpa using h
        simp only [filterWithIndex, hf, if_false]
        exact ih (n + 1) j' hj' h'

lemma duplicate_row_verdict (importData existingProducts : List ProductSKU)
    (i j : Nat) (hi : i < importData.length) (hj : j < importData.length) (hij : i ≠ j)
    (hpl : importData[i].pricelist_id = importData[j].pricelist_id)
    (hbp : importData[i].business_product_id = importData[j].business_product_id) :
    duplicateErrorMsg importData[i] ∈
      (validateProduct importData[i] i existingProducts importData).validation.errors ∧
    (validateProduct importData[i] i existingProducts importData).validation.status =
      ValidationStatus.error ∧
    (validateProduct importData[i] i existingProducts importData).validation.action =
      ImportAction.skip := by
  have hdup : 0 < (duplicatesOf importData[i] i importData).length := by
    apply filterWithIndex_pos _ _ 0 j hj
    simp only [Nat.zero_add, Bool.and_eq_true, bne_iff_ne, beq_iff_eq]
    exact ⟨⟨fun hh => hij hh.symm, hpl.symm⟩, hbp.symm⟩
  have hmem : duplicateErrorMsg importData[i] ∈
      collectErrors importData[i] i importData := by
    unfold collectErrors
    simp [hdup]
  have hne : collectErrors importData[i] i importData ≠ [] :=
    List.ne_nil_of_mem hmem
  have hlen : 0 < (collectErrors importData[i] i importData).length :=
    List.length_pos.mpr hne
  refine ⟨hmem, ?_, ?_⟩
  · rw [validateProduct_status]
    simp [hlen]
  · rw [validateProduct_action]
    simp [hlen]

/-- C4: if two rows at different indices of a batch share both the
pricelist identifier and the business product identifier, then both rows'
verdicts contain the duplicate error naming the two identifiers, have
status `error`, and have action `skip`. -/
theorem validateProduct_duplicate_pair (importData existingProducts : List ProductSKU)
    (i j : Nat) (hi : i < importData.length) (hj : j < importData.length) (hij : i ≠ j)
    (hpl : importData[i].pricelist_id = importData[j].pricelist_id)
    (hbp : importData[i].business_product_id = importData[j].business_product_id) :
    (duplicateErrorMsg importData[i] ∈
        (validateProduct importData[i] i existingProducts importData).validation.errors ∧
      (validateProduct importData[i] i existingProducts importData).validation.status =
        ValidationStatus.error ∧
      (validateProduct importData[i] i existingProducts importData).validation.action =
        ImportAction.skip) ∧
    (duplicateErrorMsg importData[j] ∈
        (validateProduct importData[j] j existingProducts importData).validation.errors ∧
      (validateProduct importData[j] j existingProducts importData).validation.status =
        ValidationStatus.error ∧
      (validateProduct importData[j] j existingProducts importData).validation.action =
        ImportAction.skip) :=
  ⟨duplicate_row_verdict importData existingProducts i j hi hj hij hpl hbp,
   duplicate_row_verdict importData existingProducts j i hj hi (Ne.symm hij) hpl.symm hbp.symm⟩

/-- Scenario-E rows: two distinct rows sharing pricelist `PL1` and
business product identifier `P5`. -/
def rowP5a : ProductSKU := { baseRow with business_product_id := "P5" }

/-- Second Scenario-E row, a different record with the same two
identifiers. -/
def rowP5b : ProductSKU :=
  { baseRow with business_product_id := "P5", id := "sku-2", product_name := "Widget B" }

/-- Witness for C4 on the concrete two-row Scenario-E batch. -/
theorem validateProduct_duplicate_pair_witness :
    duplicateErrorMsg rowP5a ∈
      (validateProduct rowP5a 0 [] [rowP5a, rowP5b]).validation.errors ∧
    (validateProduct rowP5b 1 [] [rowP5a, rowP5b]).validation.status = ValidationStatus.error := by
  have h := validateProduct_duplicate_pair [rowP5a, rowP5b] [] 0 1 (by decide) (by decide)
    (by decide) (by decide) (by decide)
  exact ⟨h.1.1, h.2.2.1⟩

/-! ### C5 — the missing-products set -/

lemma string_beq_comm (a b : String) : (a == b) = (b == a) := by
  cases h : a == b <;> cases h2 : b == a <;> simp_all [beq_iff_eq]

lemma contains_map_bpid (l : List ProductSKU) (x : String) :
    ((l.map (fun p => p.business_product_id)).contains x) =
      l.any (fun q => q.business_product_id == x) := by
  induction l with
  | nil => rfl
  | cons a as ih =>
    simp only [List.map_cons, List.contains_cons, List.any_cons, ih]
    rw [string_beq_comm]

/-- C5: the summary's `missingProducts` are exactly the catalog entries
with `product_status == active` whose business product identifier occurs
in no batch row; consequently no catalog entry whose identifier occurs in
any batch row (whatever that row's own verdict) is ever missing. -/
theorem validateProducts_missingProducts (importData existingProducts : List ProductSKU) :
    (validateProducts importData existingProducts).missingProducts =
      existingProducts.filter (fun p => p.product_status == ProductStatus.active &&
        !(importData.any (fun q => q.business_product_id == p.business_product_id))) ∧
    ∀ p ∈ (validateProducts importData existingProducts).missingProducts,
      ∀ q ∈ importData, q.business_product_id ≠ p.business_product_id := by
  have heq : (validateProducts importData existingProducts).missingProducts =
      existingProducts.filter (fun p => p.product_status == ProductStatus.active &&
        !(importData.any (fun q => q.business_product_id == p.business_product_id))) := by
    simp only [validateProducts]
    apply List.filter_congr
    intro p _
    rw [contains_map_bpid]
  refine ⟨heq, ?_⟩
  intro p hp q hq hqp
  rw [heq] at hp
  have hcond := (List.mem_filter.mp hp).2
  simp only [Bool.and_eq_true, Bool.not_eq_true'] at hcond
  have hnone := List.any_eq_false.mp hcond.2 q hq
  exact hnone (by simp [hqp])

/-- Scenario-D catalog entry: an active product `P9` absent from the
batch. -/
def catalogP9 : ProductSKU := { baseRow with business_product_id := "P9", id := "sku-9" }

/-- Witness for C5: with batch `[baseRow]` and catalog `[catalogP9]`, the
entry `P9` is missing, and the theorem yields that the batch row's
identifier differs from it. -/
theorem validateProducts_missingProducts_witness :
    baseRow.business_product_id ≠ catalogP9.business_product_id :=
  (validateProducts_missingProducts [baseRow] [catalogP9]).2 catalogP9 (by decide)
    baseRow (by decide)

/-! ### C7 — `NaN` MRP and the ≥ 0 rule -/

lemma mrpErrorMsg_ne_duplicateErrorMsg (p : ProductSKU) :
    mrpErrorMsg ≠ duplicateErrorMsg p := by
  intro h
  have h' := congrArg String.length h
  simp only [duplicateErrorMsg, String.length_append] at h'
  have h1 : mrpErrorMsg.length = 38 := by decide
  have h2 : ("Duplicate entry: (" : String).length = 18 := by decide
  have h3 : (", " : String).length = 2 := by decide
  have h4 : (") appears multiple times in import file" : String).length = 39 := by decide
  rw [h1, h2, h3, h4] at h'
  omega

/-- C7 counterexample: a row whose MRP is `NaN` and which is otherwise
valid gets a verdict with an empty error list — in particular without the
MRP message — and status `accepted`, because `NaN < 0` is false. -/
theorem nanMrpRow_verdict_counterexample :
    (validateProduct nanMrpRow 0 [] [nanMrpRow]).validation.errors = [] ∧
    mrpErrorMsg ∉ (validateProduct nanMrpRow 0 [] [nanMrpRow]).validation.errors ∧
    (validateProduct nanMrpRow 0 [] [nanMrpRow]).validation.status =
      ValidationStatus.accepted := by
  refine ⟨by decide, ?_, by decide⟩
  intro h
  rw [show (validateProduct nanMrpRow 0 [] [nanMrpRow]).validation.errors = [] by decide] at h
  exact List.not_mem_nil _ h

/-- C7 amended: a `NaN` MRP passes the ≥ 0 rule — for every row whose
`product_mrp` is `NaN`, the verdict's error list never contains the MRP
message, whatever the catalog and batch. -/
theorem nan_mrp_passes_mrp_rule (product : ProductSKU) (rowIndex : Nat)
    (existingProducts importData : List ProductSKU)
    (hnan : product.product_mrp = JNum.nan) :
    mrpErrorMsg ∉
      (validateProduct product rowIndex existingProducts importData).validation.errors := by
  rw [validateProduct_errors]
  intro h
  unfold collectErrors at h
  rw [hnan] at h
  have h1 : mrpErrorMsg ≠ currencyErrorMsg := by decide
  have h2 : mrpErrorMsg ≠ businessIdErrorMsg := by decide
  have h3 : mrpErrorMsg ≠ pricelistIdErrorMsg := by decide
  have h4 : mrpErrorMsg ≠ productNameErrorMsg := by decide
  have h5 := mrpErrorMsg_ne_duplicateErrorMsg product
  split_ifs at h <;> simp_all [JNum.jsLt]

/-- Witness for the amended C7 at the concrete `NaN`-MRP row. -/
theorem nan_mrp_passes_mrp_rule_witness :
    mrpErrorMsg ∉ (validateProduct nanMrpRow 0 [] [nanMrpRow]).validation.errors :=
  nan_mrp_passes_mrp_rule nanMrpRow 0 [] [nanMrpRow] rfl

/-! ### C8 and C9 — the confirmed-sync loop -/

lemma confirmSyncRun_calls_eq (rows : List ValidatedProduct) :
    ∀ (env env' : Nat → Option String) (k k' : Nat) (st st' : Store),
      (confirmSyncRun env k st rows).2 = (confirmSyncRun env' k' st' rows).2 := by
  induction rows with
  | nil => intro env env' k k' st st'; rfl
  | cons vp rest ih =>
    intro env env' k k' st st'
    simp only [confirmSyncRun]
    by_cases h1 : (vp.validation.status == ValidationStatus.accepted) = true
    · by_cases h2 : (vp.validation.action == ImportAction.insert) = true
      · simp only [h1, h2, if_true]
        exact congrArg (List.cons (StoreCall.add vp)) (ih env env' (k + 1) (k' + 1) _ _)
      · rw [Bool.not_eq_true] at h2
        by_cases h3 : (vp.validation.action == ImportAction.update) = true
        · simp only [h1, h2, h3, if_true, Bool.false_eq_true, if_false]
          exact congrArg (List.cons (StoreCall.update vp.product.business_product_id vp))
            (ih env env' (k + 1) (k' + 1) _ _)
        · rw [Bool.not_eq_true] at h3
          simp only [h1, h2, h3, if_true, Bool.false_eq_true, if_false]
          exact ih env env' (k + 1) (k' + 1) _ _
    · rw [Bool.not_eq_true] at h1
      simp only [h1, Bool.false_eq_true, if_false]
      exact ih env env' (k + 1) (k' + 1) _ _

/-- C8: during the confirmed sync step a per-row mutation failure is
caught inside that row's store call, so the loop keeps processing the
remaining rows — the sequence of store calls issued is the same under any
failure environment as under the all-success environment; and a failing
`addProduct`/`updateProduct` returns normally, leaving the products
untouched and only recording the error message. -/
theorem confirmSync_failure_caught_per_row (env : Nat → Option String) (st : Store)
    (rows : List ValidatedProduct) :
    (confirmSyncRun env 0 st rows).2 = (confirmSyncRun (fun _ => none) 0 st rows).2 ∧
    ∀ (msg : String) (s : Store) (vp : ValidatedProduct) (id : String),
      addProduct (some msg) s vp = { products := s.products, error := some msg } ∧
      updateProduct (some msg) s id vp = { products := s.products, error := some msg } :=
  ⟨confirmSyncRun_calls_eq rows env (fun _ => none) 0 0 st st,
   fun _ _ _ _ => ⟨rfl, rfl⟩⟩

lemma confirmSyncRun_calls_spec (rows : List ValidatedProduct) :
    ∀ (env : Nat → Option String) (k : Nat) (st : Store),
      (confirmSyncRun env k st rows).2 =
        (rows.filter (fun vp => vp.validation.status == ValidationStatus.accepted &&
            (vp.validation.action == ImportAction.insert ||
             vp.validation.action == ImportAction.update))).map
          (fun vp => if vp.validation.action == ImportAction.insert then StoreCall.add vp
            else StoreCall.update vp.product.business_product_id vp) := by
  induction rows with
  | nil => intro env k st; rfl
  | cons vp rest ih =>
    intro env k st
    simp only [confirmSyncRun, List.filter_cons]
    by_cases h1 : (vp.validation.status == ValidationStatus.accepted) = true
    · by_cases h2 : (vp.validation.action == ImportAction.insert) = true
      · simp only [h1, h2, if_true, Bool.true_and, Bool.true_or, List.map_cons]
        exact congrArg (List.cons (StoreCall.add vp)) (ih env (k + 1) _)
      · rw [Bool.not_eq_true] at h2
        by_cases h3 : (vp.validation.action == ImportAction.update) = true
        · simp only [h1, h2, h3, if_true, Bool.false_eq_true, if_false, Bool.true_and,
            Bool.false_or, List.map_cons]
          exact congrArg (List.cons (StoreCall.update vp.product.business_product_id vp))
            (ih env (k + 1) _)
        · rw [Bool.not_eq_true] at h3
          simp only [h1, h2, h3, Bool.false_eq_true, if_false, Bool.true_and, Bool.false_or]
          exact ih env (k + 1) _
    · rw [Bool.not_eq_true] at h1
      simp only [h1, Bool.false_eq_true, if_false, Bool.false_and]
      exact ih env (k + 1) _

/-- C9: the confirmed sync step issues a store call exactly for the rows
whose verdict status is `accepted` and whose action is `insert` or
`update` — `addProduct` for the inserts, `updateProduct` keyed by the
row's business product identifier for the updates — and rows with status
`error` or `warning`, or with action `skip`, trigger no store mutation. -/
theorem confirmSync_calls_accepted_only (env : Nat → Option String) (st : Store)
    (rows : List ValidatedProduct) :
    (confirmSyncRun env 0 st rows).2 =
      (rows.filter (fun vp => vp.validation.status == ValidationStatus.accepted &&
          (vp.validation.action == ImportAction.insert ||
           vp.validation.action == ImportAction.update))).map
        (fun vp => if vp.validation.action == ImportAction.insert then StoreCall.add vp
          else StoreCall.update vp.product.business_product_id vp) :=
  confirmSyncRun_calls_spec rows env 0 st

end ProductManager
